import Mathlib

/-!
Verification of the bearer-token authentication guard of `backend/app.py`
(the `validate_token` decorator together with the PyJWT library calls it
delegates to, and the `PyJWKClient` key resolver).

The embedding keeps the control flow of `decorated_function` (app.py lines
39-126) exactly: header extraction, key resolution with a *fresh*
`PyJWKClient` per request, the unverified issuer peek, the verifying
`jwt.decode` call, and the `except` ladder.  The parts that live in the
PyJWT dependency (version 2.x, as pinned by the `from jwt import
PyJWKClient` import which exists only in PyJWT >= 2) are embedded from
PyJWT's documented behaviour: `api_jws` checks the declared algorithm
against the allow-list and then the signature; `api_jwt._validate_claims`
checks, in order, iat, nbf, exp, iss, aud (PyJWT 2.x); `PyJWKClient`
(2.6+) fetches the key set lazily into an instance-level cache and retries
the kid lookup once after a refresh fetch.

Base64/JSON serialisation and RSA verification are abstracted into a
`PyEnv` record (an injective wire codec and a signature-validity oracle);
everything downstream of them is concrete and executable.
-/

deriving instance DecidableEq for Except

namespace JwtApp

/-! ### Python string primitives

`str.split()` with no argument splits on runs of whitespace and discards
empty fields; `str.lower` is modelled on ASCII (the only case relevant to
the `'bearer'` comparison); `s[:n]` takes the first `n` code points.
These are written as structural recursion over the character list so that
concrete witnesses evaluate inside the kernel. -/

def pySpace (c : Char) : Bool :=
  c = ' ' || c = '\t' || c = '\n' || c = '\x0d' || c = '\x0b' || c = '\x0c'

def splitWsAux : List Char → List Char → List String
  | [], acc => if acc.isEmpty then [] else [String.mk acc.reverse]
  | c :: cs, acc =>
    if pySpace c then
      if acc.isEmpty then splitWsAux cs []
      else String.mk acc.reverse :: splitWsAux cs []
    else splitWsAux cs (c :: acc)

/-- Python `s.split()` (no separator): split on whitespace runs. -/
def pySplit (s : String) : List String := splitWsAux s.data []

/-- Python `s.lower()`, restricted to ASCII case mapping. -/
def pyLower (s : String) : String := String.mk (s.data.map Char.toLower)

/-- Python `s[:n]`: the first at most `n` code points of `s`. -/
def pyTake (s : String) (n : Nat) : String := String.mk (s.data.take n)

/-! ### Configuration (app.py lines 26-33)

`TENANT_ID`/`CLIENT_ID` come from the environment; the issuer strings,
JWKS URL and audience are derived exactly as in the source. -/

structure TrustConfig where
  tenantId : String
  clientId : String
deriving DecidableEq

def ISSUER_V1 (cfg : TrustConfig) : String :=
  "https://sts.windows.net/" ++ cfg.tenantId ++ "/"

def ISSUER_V2 (cfg : TrustConfig) : String :=
  "https://login.microsoftonline.com/" ++ cfg.tenantId ++ "/v2.0"

def JWKS_URI (cfg : TrustConfig) : String :=
  "https://login.microsoftonline.com/" ++ cfg.tenantId ++ "/discovery/v2.0/keys"

def AUDIENCE (cfg : TrustConfig) : String := "api://" ++ cfg.clientId

/-- app.py line 68: `expected_issuer = ISSUER_V1 if issuer == ISSUER_V1 else ISSUER_V2`. -/
def expected_issuer (cfg : TrustConfig) (issuer : String) : String :=
  if issuer = ISSUER_V1 cfg then ISSUER_V1 cfg else ISSUER_V2 cfg

/-! ### Tokens and the abstracted wire/crypto layer -/

/-- The JOSE header fields the code reads: `alg` and `kid`. -/
structure JoseHeader where
  alg : Option String
  kid : Option String
deriving DecidableEq

/-- The payload claims the validation path reads.  A claim that is absent
from the JSON object is `none`.  (List-valued `aud` is not modelled; the
provider emits a single string.) -/
structure Payload where
  iss : Option String
  aud : Option String
  exp : Option Int
  nbf : Option Int
  iat : Option Int
deriving DecidableEq

/-- A structurally well-formed three-segment JWT, as PyJWT's `_load`
exposes it: decoded header, decoded payload, and the signature bytes. -/
structure Jwt where
  header : JoseHeader
  payload : Payload
  sig : String
deriving DecidableEq

/-- Public key material, keyed by `kid` in the JWK set. -/
abbrev Key := String

/-- The abstracted serialisation and cryptography layer:
`parseJwt` is PyJWT's structural decode of the compact serialisation
(base64url segments + JSON), returning the `DecodeError` message on
malformed input; `verifyRS256` is RSA-SHA256 signature verification of
the token against a key; `jwksKeys` is the JWK set the discovery
endpoint currently serves (kid, key) — a fetch returns this value. -/
structure PyEnv where
  parseJwt : String → Except String Jwt
  verifyRS256 : Jwt → Key → Bool
  jwksKeys : List (String × Key)

/-! ### PyJWT exceptions distinguished by the guard's `except` ladder -/

/-- The exception classes the `except` clauses on app.py lines 108-117
distinguish.  `invalidTokenError` covers every other
`jwt.InvalidTokenError` subclass (`DecodeError`, `InvalidSignatureError`,
`InvalidAlgorithmError`, `ImmatureSignatureError`,
`MissingRequiredClaimError`), carrying `str(e)`. -/
inductive JwtExc where
  | expiredSignatureError (msg : String)
  | invalidAudienceError (msg : String)
  | invalidIssuerError (msg : String)
  | invalidTokenError (msg : String)
deriving DecidableEq

/-! ### PyJWT `jwt.decode` with full verification (app.py lines 73-87)

`api_jws._verify_signature`: missing `alg` → "Algorithm not specified";
`alg` outside `algorithms=['RS256']` (including `''` and `'none'`) →
"The specified alg value is not allowed"; then RSA verification, failure →
`InvalidSignatureError`.  `api_jwt._validate_claims` (PyJWT 2.x, leeway 0)
then checks iat, nbf, exp, iss, aud in that order. -/

def jwsAlgCheck (h : JoseHeader) : Except JwtExc Unit :=
  match h.alg with
  | none => .error (.invalidTokenError "Algorithm not specified")
  | some a =>
    if a = "RS256" then .ok ()
    else .error (.invalidTokenError "The specified alg value is not allowed")

def validateIat (p : Payload) (now : Int) : Except JwtExc Unit :=
  match p.iat with
  | none => .ok ()
  | some iat =>
    if iat > now then .error (.invalidTokenError "The token is not yet valid (iat)")
    else .ok ()

def validateNbf (p : Payload) (now : Int) : Except JwtExc Unit :=
  match p.nbf with
  | none => .ok ()
  | some nbf =>
    if nbf > now then .error (.invalidTokenError "The token is not yet valid (nbf)")
    else .ok ()

def validateExp (p : Payload) (now : Int) : Except JwtExc Unit :=
  match p.exp with
  | none => .ok ()
  | some e =>
    if e ≤ now then .error (.expiredSignatureError "Signature has expired")
    else .ok ()

def validateIss (p : Payload) (issuer : String) : Except JwtExc Unit :=
  match p.iss with
  | none => .error (.invalidTokenError "Token is missing the \x22iss\x22 claim")
  | some i =>
    if i = issuer then .ok ()
    else .error (.invalidIssuerError "Invalid issuer")

def validateAud (p : Payload) (audience : String) : Except JwtExc Unit :=
  match p.aud with
  | none => .error (.invalidTokenError "Token is missing the \x22aud\x22 claim")
  | some a =>
    if a = "" then .error (.invalidTokenError "Token is missing the \x22aud\x22 claim")
    else if a = audience then .ok ()
    else .error (.invalidAudienceError "Audience doesn\x27t match")

def validateClaims (p : Payload) (audience issuer : String) (now : Int) :
    Except JwtExc Unit :=
  match validateIat p now with
  | .error e => .error e
  | .ok () =>
    match validateNbf p now with
    | .error e => .error e
    | .ok () =>
      match validateExp p now with
      | .error e => .error e
      | .ok () =>
        match validateIss p issuer with
        | .error e => .error e
        | .ok () => validateAud p audience

/-- `jwt.decode(token, key, algorithms=['RS256'], audience, issuer,
options={... all True})`.  The second component counts RSA signature
verification operations performed. -/
def jwtDecode (env : PyEnv) (tok : String) (key : Key) (audience issuer : String)
    (now : Int) : Except JwtExc Payload × Nat :=
  match env.parseJwt tok with
  | .error m => (.error (.invalidTokenError m), 0)
  | .ok t =>
    match jwsAlgCheck t.header with
    | .error e => (.error e, 0)
    | .ok () =>
      if env.verifyRS256 t key then
        match validateClaims t.payload audience issuer now with
        | .error e => (.error e, 1)
        | .ok () => (.ok t.payload, 1)
      else (.error (.invalidTokenError "Signature verification failed"), 1)

/-! ### PyJWKClient (app.py lines 60-61)

A fresh instance is constructed inside `decorated_function` on every
request, so `jwk_set_cache` always starts empty.  `get_signing_key`
fetches the set (one network fetch), looks up the kid, and on a miss
refreshes (a second fetch) and retries once — PyJWT 2.6+ semantics.
Every result carries the number of fetches performed. -/

structure PyJWKClient where
  uri : String
  jwk_set_cache : Option (List (String × Key))
deriving DecidableEq

def PyJWKClient.getJwkSet (c : PyJWKClient) (env : PyEnv) (refresh : Bool) :
    List (String × Key) × PyJWKClient × Nat :=
  match c.jwk_set_cache, refresh with
  | some data, false => (data, c, 0)
  | _, _ => (env.jwksKeys, { c with jwk_set_cache := some env.jwksKeys }, 1)

def PyJWKClient.getSigningKeys (c : PyJWKClient) (env : PyEnv) (refresh : Bool) :
    Except String (List (String × Key)) × PyJWKClient × Nat :=
  match c.getJwkSet env refresh with
  | (data, c1, n) =>
    if data.isEmpty then
      (.error "The JWKS endpoint did not contain any signing keys", c1, n)
    else (.ok data, c1, n)

/-- The kid lookup loop in `PyJWKClient.get_signing_key`. -/
def matchKid (keys : List (String × Key)) (kid : Option String) : Option Key :=
  match kid with
  | none => none
  | some k =>
    match keys.find? (fun p => p.1 == k) with
    | some p => some p.2
    | none => none

def kidRepr : Option String → String
  | some s => s
  | none => "None"

def PyJWKClient.getSigningKey (c : PyJWKClient) (env : PyEnv) (kid : Option String) :
    Except String Key × PyJWKClient × Nat :=
  match c.getSigningKeys env false with
  | (.error m, c1, n1) => (.error m, c1, n1)
  | (.ok keys, c1, n1) =>
    match matchKid keys kid with
    | some k => (.ok k, c1, n1)
    | none =>
      match c1.getSigningKeys env true with
      | (.error m, c2, n2) => (.error m, c2, n1 + n2)
      | (.ok keys2, c2, n2) =>
        match matchKid keys2 kid with
        | some k => (.ok k, c2, n1 + n2)
        | none =>
          (.error ("Unable to find a signing key that matches: \x22" ++
              kidRepr kid ++ "\x22"), c2, n1 + n2)

/-! ### The guard (`validate_token` decorator, app.py lines 36-126) -/

/-- The `logger` calls the guard makes, as structured entries: each
constructor is one `logger.…(f"…")` statement, carrying exactly the data
interpolated into the format string. -/
inductive LogEntry where
  | noAuthHeader                        -- line 43
  | invalidHeaderFormat                 -- line 49
  | receivedToken (pre : String)        -- line 55: f"Received JWT token: {token[:50]}..."
  | tokenLength (n : Nat)               -- line 56
  | tokenIssuer (iss : String)          -- line 69
  | expectedIssuerLog (iss : String)    -- line 70
  | validationSuccess (p : Payload)     -- lines 90-103 (claims, not the raw token)
  | errTokenExpired                     -- line 109
  | errInvalidAudience (clientId : String) -- line 112
  | errInvalidToken (msg : String)      -- line 118
  | errValidationError (msg : String)   -- line 121
deriving DecidableEq

inductive HttpResponse where
  | json401 (error : String)            -- `jsonify({'error': …}), 401`
  | handler (claims : Payload)          -- `request.decoded_token = …; return f(...)`
deriving DecidableEq

inductive GuardOutcome where
  | response (r : HttpResponse)         -- decorated_function returned
  | escaped (err : String)              -- an exception escaped decorated_function
deriving DecidableEq

structure GuardResult where
  outcome : GuardOutcome
  fetches : Nat                          -- network fetches to the JWKS endpoint
  verifies : Nat                         -- RSA signature verifications
  logs : List LogEntry
deriving DecidableEq

/-- The `except jwt.InvalidIssuerError` handler (line 115) interpolates
the undefined name `ISSUER` into its log format string, so CPython raises
`NameError` inside the handler; it is not caught by the sibling `except`
clauses and escapes `decorated_function`. -/
def nameErrorMsg : String := "NameError: name \x27ISSUER\x27 is not defined"

/-- Dispatch on the result of the verifying `jwt.decode` call: the
success path (lines 89-124) and the `except` ladder (lines 108-122). -/
def guardVerdict (clientId : String) (logs1 : List LogEntry) (n : Nat)
    (res : Except JwtExc Payload × Nat) : GuardResult :=
  match res with
  | (.ok p, v) =>
    { outcome := .response (.handler p), fetches := n, verifies := v,
      logs := logs1 ++ [.validationSuccess p] }
  | (.error (.expiredSignatureError _), v) =>
    { outcome := .response (.json401 "Token has expired"), fetches := n, verifies := v,
      logs := logs1 ++ [.errTokenExpired] }
  | (.error (.invalidAudienceError _), v) =>
    { outcome := .response (.json401 "Invalid token audience"), fetches := n, verifies := v,
      logs := logs1 ++ [.errInvalidAudience clientId] }
  | (.error (.invalidIssuerError _), v) =>
    { outcome := .escaped nameErrorMsg, fetches := n, verifies := v, logs := logs1 }
  | (.error (.invalidTokenError m), v) =>
    { outcome := .response (.json401 ("Invalid token: " ++ m)), fetches := n, verifies := v,
      logs := logs1 ++ [.errInvalidToken m] }

/-- `decorated_function` (app.py lines 39-124) on one request.
`authorization` is the request's `Authorization` header (`none` when
absent); `now` is the validation-time clock. -/
def validate_token (cfg : TrustConfig) (env : PyEnv) (now : Int)
    (authorization : Option String) : GuardResult :=
  let auth := authorization.getD ""
  if auth = "" then
    { outcome := .response (.json401 "No authorization header"),
      fetches := 0, verifies := 0, logs := [.noAuthHeader] }
  else
    match pySplit auth with
    | [p0, token] =>
      if pyLower p0 = "bearer" then
        let logs0 : List LogEntry :=
          [.receivedToken (pyTake token 50), .tokenLength token.length]
        -- jwks_client = PyJWKClient(JWKS_URI)
        -- signing_key = jwks_client.get_signing_key_from_jwt(token)
        match env.parseJwt token with
        | .error m =>
          -- DecodeError while reading the unverified header → except InvalidTokenError
          { outcome := .response (.json401 ("Invalid token: " ++ m)),
            fetches := 0, verifies := 0, logs := logs0 ++ [.errInvalidToken m] }
        | .ok t =>
          match PyJWKClient.getSigningKey ⟨JWKS_URI cfg, none⟩ env t.header.kid with
          | (.error m, _, n) =>
            -- PyJWKClientError is not an InvalidTokenError → generic except Exception
            { outcome := .response (.json401 ("Token validation failed: " ++ m)),
              fetches := n, verifies := 0, logs := logs0 ++ [.errValidationError m] }
          | (.ok key, _, n) =>
            -- unverified = jwt.decode(token, options={"verify_signature": False})
            -- issuer = unverified.get('iss', '')
            let issuer := t.payload.iss.getD ""
            let expected := expected_issuer cfg issuer
            let logs1 := logs0 ++ [.tokenIssuer issuer, .expectedIssuerLog expected]
            guardVerdict cfg.clientId logs1 n
              (jwtDecode env token key (AUDIENCE cfg) expected now)
      else
        { outcome := .response (.json401 "Invalid authorization header format"),
          fetches := 0, verifies := 0, logs := [.invalidHeaderFormat] }
    | _ =>
      { outcome := .response (.json401 "Invalid authorization header format"),
        fetches := 0, verifies := 0, logs := [.invalidHeaderFormat] }

/-- A sequence of independent requests.  `decorated_function` constructs
its `PyJWKClient` locally and app.py keeps no module-level key state, so
consecutive requests are independent evaluations of the guard. -/
def requestTrace (cfg : TrustConfig) (env : PyEnv) (now : Int)
    (auths : List (Option String)) : List GuardResult :=
  auths.map (validate_token cfg env now)

/-- The header shapes accepted by lines 42-48: a present, non-empty
`Authorization` value whose whitespace-split has exactly two fields, the
first being `bearer` up to ASCII case. -/
def wellFormedBearer (authorization : Option String) : Bool :=
  match authorization with
  | none => false
  | some auth =>
    if auth = "" then false
    else
      match pySplit auth with
      | [p0, _] => pyLower p0 == "bearer"
      | _ => false

/-! ### Concrete fixture: a configuration, a key set, and a family of
tokens used by witnesses and counterexamples.  The wire codec maps a
handful of literal token strings to their structured decodings (as the
injective base64/JSON serialisation does) and the signature oracle
accepts exactly the signature string `"sig-" ++ key`. -/

def cfg0 : TrustConfig := { tenantId := "tenant-id", clientId := "client-id" }

def now0 : Int := 1700000000

def key0 : Key := "K0"

def basePayload : Payload :=
  { iss := some (ISSUER_V2 cfg0), aud := some (AUDIENCE cfg0),
    exp := some (now0 + 3600), nbf := none, iat := some (now0 - 60) }

def hdr0 : JoseHeader := { alg := some "RS256", kid := some "kid1" }

def jwtGood : Jwt := { header := hdr0, payload := basePayload, sig := "sig-K0" }

def jwtExpired : Jwt :=
  { header := hdr0, payload := { basePayload with exp := some (now0 - 3600) },
    sig := "sig-K0" }

def jwtExpiredBadSig : Jwt :=
  { header := hdr0, payload := { basePayload with exp := some (now0 - 3600) },
    sig := "forged" }

def jwtBadIss : Jwt :=
  { header := hdr0, payload := { basePayload with iss := some "https://evil.example/" },
    sig := "sig-K0" }

def jwtBadIssBadAud : Jwt :=
  { header := hdr0,
    payload :=
      { basePayload with
        iss := some "https://evil.example/"
        aud := some "spn:wrong" },
    sig := "sig-K0" }

def jwtEmptyAud : Jwt :=
  { header := hdr0, payload := { basePayload with aud := some "" }, sig := "sig-K0" }

def jwtBareAud : Jwt :=
  { header := hdr0, payload := { basePayload with aud := some "client-id" },
    sig := "sig-K0" }

def jwtHs256 : Jwt :=
  { header := { alg := some "HS256", kid := some "kid1" }, payload := basePayload,
    sig := "sig-K0" }

def jwtUnknownKid : Jwt :=
  { header := { alg := some "RS256", kid := some "kid-unknown" },
    payload := basePayload, sig := "sig-K0" }

def env0 : PyEnv :=
  { parseJwt := fun s =>
      if s = "tok-good" then .ok jwtGood
      else if s = "tok-expired" then .ok jwtExpired
      else if s = "tok-expired-badsig" then .ok jwtExpiredBadSig
      else if s = "tok-badiss" then .ok jwtBadIss
      else if s = "tok-badiss-badaud" then .ok jwtBadIssBadAud
      else if s = "tok-emptyaud" then .ok jwtEmptyAud
      else if s = "tok-bareaud" then .ok jwtBareAud
      else if s = "tok-hs256" then .ok jwtHs256
      else if s = "tok-unknownkid" then .ok jwtUnknownKid
      else .error "Not enough segments",
    verifyRS256 := fun t k => t.sig == "sig-" ++ k,
    jwksKeys := [("kid1", "K0")] }

/-- The `InvalidAlgorithmError` message `jwsAlgCheck` produces for a
header whose declared algorithm is not the allowed `RS256`. -/
def algErrMsg : Option String → String
  | none => "Algorithm not specified"
  | some _ => "The specified alg value is not allowed"

/-! ## Helper lemmas -/

theorem take_len_append {α : Type} (l₁ l₂ : List α) :
    (l₁ ++ l₂).take l₁.length = l₁ := by
  induction l₁ with
  | nil => rfl
  | cons a t ih => simp [ih]

theorem string_data_append (s t : String) : (s ++ t).data = s.data ++ t.data := rfl

/-- Two strings differ when one is `p ++ m` and the other does not start
with `p` (compared on the first `p.length` characters). -/
theorem append_ne (p m t : String) (h : t.data.take p.data.length ≠ p.data) :
    p ++ m ≠ t := by
  intro he
  apply h
  rw [← he, string_data_append, take_len_append]

theorem pyTake_length_le (s : String) (n : Nat) : (pyTake s n).length ≤ n :=
  List.length_take_le n s.data

theorem guardVerdict_fetches (cid : String) (l : List LogEntry) (n : Nat)
    (r : Except JwtExc Payload × Nat) : (guardVerdict cid l n r).fetches = n := by
  rcases r with ⟨res, v⟩
  cases res with
  | ok p => rfl
  | error e => cases e <;> rfl

theorem guardVerdict_body (cid : String) (l : List LogEntry) (n : Nat)
    (r : Except JwtExc Payload × Nat) (b : String)
    (h : (guardVerdict cid l n r).outcome = .response (.json401 b)) :
    b = "Token has expired" ∨ b = "Invalid token audience" ∨
      ∃ m, b = "Invalid token: " ++ m := by
  rcases r with ⟨res, v⟩
  cases res with
  | ok p => simp [guardVerdict] at h
  | error e =>
    cases e with
    | expiredSignatureError m =>
      simp [guardVerdict] at h
      exact .inl h.symm
    | invalidAudienceError m =>
      simp [guardVerdict] at h
      exact .inr (.inl h.symm)
    | invalidIssuerError m => simp [guardVerdict] at h
    | invalidTokenError m =>
      simp [guardVerdict] at h
      exact .inr (.inr ⟨m, h.symm⟩)

theorem guardVerdict_logs (cid : String) (l : List LogEntry) (n : Nat)
    (r : Except JwtExc Payload × Nat) :
    ∀ e ∈ (guardVerdict cid l n r).logs, e ∈ l ∨ ∀ s, e ≠ LogEntry.receivedToken s := by
  rcases r with ⟨res, v⟩
  intro e he
  cases res with
  | ok p =>
    simp [guardVerdict] at he
    rcases he with h | h
    · exact .inl h
    · subst h; exact .inr (by intro s hs; cases hs)
  | error err =>
    cases err <;> simp [guardVerdict] at he <;>
      first
        | (rcases he with h | h
           · exact .inl h
           · subst h; exact .inr (by intro s hs; cases hs))
        | exact .inl he

theorem guardVerdict_logs_left (cid : String) (l : List LogEntry) (n : Nat)
    (r : Except JwtExc Payload × Nat) :
    ∀ e ∈ l, e ∈ (guardVerdict cid l n r).logs := by
  intro e he
  rcases r with ⟨res, v⟩
  cases res with
  | ok p => exact List.mem_append_left _ he
  | error err =>
    cases err <;> first | exact List.mem_append_left _ he | exact he

theorem guardVerdict_handler (cid : String) (l : List LogEntry) (n : Nat)
    (r : Except JwtExc Payload × Nat) (p : Payload)
    (h : (guardVerdict cid l n r).outcome = .response (.handler p)) :
    r.1 = .ok p := by
  rcases r with ⟨res, v⟩
  cases res with
  | ok q => simp [guardVerdict] at h; simp [h]
  | error e => cases e <;> simp [guardVerdict] at h

theorem matchKid_nil (kid : Option String) : matchKid [] kid = none := by
  cases kid <;> rfl

theorem isEmpty_false_of_ne_nil {α : Type} {l : List α} (h : l ≠ []) :
    l.isEmpty = false := by
  cases l with
  | nil => exact absurd rfl h
  | cons a t => rfl

theorem getSigningKey_found (env : PyEnv) (uri : String) (kid : Option String)
    (key : Key) (hkid : matchKid env.jwksKeys kid = some key) :
    PyJWKClient.getSigningKey ⟨uri, none⟩ env kid
      = (.ok key, ⟨uri, some env.jwksKeys⟩, 1) := by
  have hne : env.jwksKeys ≠ [] := by
    intro h
    rw [h, matchKid_nil] at hkid
    cases hkid
  simp only [PyJWKClient.getSigningKey, PyJWKClient.getSigningKeys,
    PyJWKClient.getJwkSet]
  simp [isEmpty_false_of_ne_nil hne, hkid]

theorem getSigningKey_notfound (env : PyEnv) (uri : String) (kid : Option String)
    (hkid : matchKid env.jwksKeys kid = none) (hne : env.jwksKeys ≠ []) :
    PyJWKClient.getSigningKey ⟨uri, none⟩ env kid
      = (.error ("Unable to find a signing key that matches: \x22" ++
            kidRepr kid ++ "\x22"), ⟨uri, some env.jwksKeys⟩, 2) := by
  simp only [PyJWKClient.getSigningKey, PyJWKClient.getSigningKeys,
    PyJWKClient.getJwkSet]
  simp [isEmpty_false_of_ne_nil hne, hkid]

theorem validateIat_ok (p : Payload) (now : Int)
    (h : ∀ i, p.iat = some i → i ≤ now) : validateIat p now = .ok () := by
  unfold validateIat
  cases hi : p.iat with
  | none => rfl
  | some i => simp [not_lt.mpr (h i hi)]

theorem validateNbf_ok (p : Payload) (now : Int)
    (h : ∀ i, p.nbf = some i → i ≤ now) : validateNbf p now = .ok () := by
  unfold validateNbf
  cases hi : p.nbf with
  | none => rfl
  | some i => simp [not_lt.mpr (h i hi)]

theorem validateExp_expired (p : Payload) (now e : Int)
    (hexp : p.exp = some e) (he : e ≤ now) :
    validateExp p now = .error (.expiredSignatureError "Signature has expired") := by
  unfold validateExp
  rw [hexp]
  simp [he]

theorem validateExp_ok (p : Payload) (now : Int)
    (h : ∀ e, p.exp = some e → now < e) : validateExp p now = .ok () := by
  unfold validateExp
  cases he : p.exp with
  | none => rfl
  | some e => simp [not_le.mpr (h e he)]

theorem validateIss_ok (p : Payload) (issuer : String)
    (h : p.iss = some issuer) : validateIss p issuer = .ok () := by
  unfold validateIss
  rw [h]
  simp

theorem validateIss_ok_inv (p : Payload) (issuer : String)
    (h : validateIss p issuer = .ok ()) : p.iss = some issuer := by
  unfold validateIss at h
  cases hi : p.iss with
  | none => rw [hi] at h; cases h
  | some i =>
    rw [hi] at h
    by_cases hii : i = issuer
    · rw [hii]
    · simp [hii] at h

theorem validateAud_cases (p : Payload) (audience a : String)
    (haud : p.aud = some a) (hane : a ≠ "") :
    validateAud p audience =
      (if a = audience then .ok ()
       else .error (.invalidAudienceError "Audience doesn\x27t match")) := by
  unfold validateAud
  rw [haud]
  simp [hane]

/-- `_validate_claims` with iat/nbf in order and an expired `exp`:
expiry is reported (before issuer and audience are looked at). -/
theorem validateClaims_expired (p : Payload) (aud iss : String) (now e : Int)
    (hiat : ∀ i, p.iat = some i → i ≤ now) (hnbf : ∀ i, p.nbf = some i → i ≤ now)
    (hexp : p.exp = some e) (he : e ≤ now) :
    validateClaims p aud iss now
      = .error (.expiredSignatureError "Signature has expired") := by
  unfold validateClaims
  rw [validateIat_ok p now hiat, validateNbf_ok p now hnbf,
    validateExp_expired p now e hexp he]

/-- `_validate_claims` when iat/nbf/exp pass and the issuer matches:
the verdict is the audience check's. -/
theorem validateClaims_to_aud (p : Payload) (aud iss : String) (now : Int)
    (hiat : ∀ i, p.iat = some i → i ≤ now) (hnbf : ∀ i, p.nbf = some i → i ≤ now)
    (hexp : ∀ e, p.exp = some e → now < e) (hiss : p.iss = some iss) :
    validateClaims p aud iss now = validateAud p aud := by
  unfold validateClaims
  rw [validateIat_ok p now hiat, validateNbf_ok p now hnbf,
    validateExp_ok p now hexp, validateIss_ok p iss hiss]

/-- A successful `_validate_claims` requires the payload's `iss` to equal
the expected issuer passed in. -/
theorem validateClaims_ok_iss (p : Payload) (aud iss : String) (now : Int)
    (h : validateClaims p aud iss now = .ok ()) : p.iss = some iss := by
  unfold validateClaims at h
  cases h1 : validateIat p now with
  | error e => rw [h1] at h; cases h
  | ok u =>
    rw [h1] at h
    cases h2 : validateNbf p now with
    | error e => rw [h2] at h; cases h
    | ok u =>
      rw [h2] at h
      cases h3 : validateExp p now with
      | error e => rw [h3] at h; cases h
      | ok u =>
        rw [h3] at h
        cases h4 : validateIss p iss with
        | error e => rw [h4] at h; cases h
        | ok u => exact validateIss_ok_inv p iss h4

/-- `jwt.decode` when the wire parse succeeds, the declared algorithm is
`RS256` and the signature verifies: the verdict reduces to the claim
checks (with one signature verification performed). -/
theorem jwtDecode_verified (env : PyEnv) (tok : String) (t : Jwt) (key : Key)
    (aud iss : String) (now : Int)
    (hp : env.parseJwt tok = .ok t) (halg : t.header.alg = some "RS256")
    (hsig : env.verifyRS256 t key = true) :
    jwtDecode env tok key aud iss now
      = (match validateClaims t.payload aud iss now with
         | .error e => .error e
         | .ok () => .ok t.payload, 1) := by
  have halgok : jwsAlgCheck t.header = .ok () := by
    unfold jwsAlgCheck
    rw [halg]
    simp
  simp only [jwtDecode, hp, halgok, hsig, if_true]
  cases validateClaims t.payload aud iss now with
  | error e => rfl
  | ok u => cases u; rfl

/-- A token `jwt.decode` accepts carries exactly the expected issuer. -/
theorem jwtDecode_ok_iss (env : PyEnv) (tok : String) (key : Key)
    (aud iss : String) (now : Int) (p : Payload)
    (h : (jwtDecode env tok key aud iss now).1 = .ok p) : p.iss = some iss := by
  unfold jwtDecode at h
  cases hp : env.parseJwt tok with
  | error m => simp only [hp] at h; simp at h
  | ok t =>
    simp only [hp] at h
    cases ha : jwsAlgCheck t.header with
    | error e => simp only [ha] at h; simp at h
    | ok u =>
      cases u
      simp only [ha] at h
      cases hv : env.verifyRS256 t key with
      | false => simp only [hv] at h; simp at h
      | true =>
        simp only [hv, if_true] at h
        cases hc : validateClaims t.payload aud iss now with
        | error e => simp only [hc] at h; simp at h
        | ok u =>
          cases u
          simp only [hc] at h
          simp at h
          rw [← h]
          exact validateClaims_ok_iss t.payload aud iss now hc

/-- The guard's path up to the verifying `jwt.decode` call, for a request
whose header is well-formed, whose token parses, and whose kid resolves
on the first (fresh) fetch. -/
theorem validate_token_steps (cfg : TrustConfig) (env : PyEnv) (now : Int)
    (auth p0 tok : String) (t : Jwt) (key : Key)
    (hsplit : pySplit auth = [p0, tok]) (hlow : pyLower p0 = "bearer")
    (hp : env.parseJwt tok = .ok t)
    (hkid : matchKid env.jwksKeys t.header.kid = some key) :
    validate_token cfg env now (some auth)
      = guardVerdict cfg.clientId
          [.receivedToken (pyTake tok 50), .tokenLength tok.length,
           .tokenIssuer (t.payload.iss.getD ""),
           .expectedIssuerLog (expected_issuer cfg (t.payload.iss.getD ""))] 1
          (jwtDecode env tok key (AUDIENCE cfg)
            (expected_issuer cfg (t.payload.iss.getD "")) now) := by
  have hne : auth ≠ "" := by
    intro h
    rw [h] at hsplit
    have : pySplit "" = [] := rfl
    rw [this] at hsplit
    cases hsplit
  unfold validate_token
  simp only [Option.getD_some, if_neg hne, hsplit, hlow, if_pos, hp,
    getSigningKey_found env (JWKS_URI cfg) t.header.kid key hkid]
  rfl

/-- The guard's path when the kid resolves in neither the fetched nor the
refreshed key set: two fetches, then the generic `except Exception`
handler answers 401. -/
theorem validate_token_keyfail (cfg : TrustConfig) (env : PyEnv) (now : Int)
    (auth p0 tok : String) (t : Jwt)
    (hsplit : pySplit auth = [p0, tok]) (hlow : pyLower p0 = "bearer")
    (hp : env.parseJwt tok = .ok t)
    (hkid : matchKid env.jwksKeys t.header.kid = none)
    (hne : env.jwksKeys ≠ []) :
    validate_token cfg env now (some auth)
      = { outcome := .response (.json401 ("Token validation failed: " ++
            ("Unable to find a signing key that matches: \x22" ++
              kidRepr t.header.kid ++ "\x22"))),
          fetches := 2, verifies := 0,
          logs := [.receivedToken (pyTake tok 50), .tokenLength tok.length,
            .errValidationError ("Unable to find a signing key that matches: \x22" ++
              kidRepr t.header.kid ++ "\x22")] } := by
  have hne' : auth ≠ "" := by
    intro h
    rw [h] at hsplit
    have : pySplit "" = [] := rfl
    rw [this] at hsplit
    cases hsplit
  unfold validate_token
  simp only [Option.getD_some, if_neg hne', hsplit, hlow, if_pos, hp,
    getSigningKey_notfound env (JWKS_URI cfg) t.header.kid hkid hne]
  rfl

theorem expected_issuer_mem (cfg : TrustConfig) (s : String) :
    expected_issuer cfg s = ISSUER_V1 cfg ∨ expected_issuer cfg s = ISSUER_V2 cfg := by
  unfold expected_issuer
  split
  · exact .inl rfl
  · exact .inr rfl

/-- Any claim set the guard hands to the downstream handler carries one
of the two configured issuers. -/
theorem validate_token_accept_iss (cfg : TrustConfig) (env : PyEnv) (now : Int)
    (auth : Option String) (p : Payload)
    (h : (validate_token cfg env now auth).outcome = .response (.handler p)) :
    p.iss = some (ISSUER_V1 cfg) ∨ p.iss = some (ISSUER_V2 cfg) := by
  simp only [validate_token] at h
  split at h
  · simp at h
  · split at h
    · split at h
      · split at h
        · simp at h
        · split at h
          · simp at h
          · have h2 := guardVerdict_handler _ _ _ _ _ h
            have h3 := jwtDecode_ok_iss _ _ _ _ _ _ _ h2
            rw [h3]
            rcases expected_issuer_mem cfg _ with h4 | h4
            · exact .inl (by rw [h4])
            · exact .inr (by rw [h4])
      · simp at h
    · simp at h

/-- Every 401 body the guard can produce. -/
theorem validate_token_body_shape (cfg : TrustConfig) (env : PyEnv) (now : Int)
    (auth : Option String) (b : String)
    (h : (validate_token cfg env now auth).outcome = .response (.json401 b)) :
    b = "No authorization header" ∨ b = "Invalid authorization header format" ∨
    b = "Token has expired" ∨ b = "Invalid token audience" ∨
    (∃ m, b = "Invalid token: " ++ m) ∨
    (∃ m, b = "Token validation failed: " ++ m) := by
  simp only [validate_token] at h
  split at h
  · simp at h
    exact .inl h.symm
  · split at h
    · split at h
      · split at h
        · simp at h
          exact .inr (.inr (.inr (.inr (.inl ⟨_, h.symm⟩))))
        · split at h
          · simp at h
            exact .inr (.inr (.inr (.inr (.inr ⟨_, h.symm⟩))))
          · rcases guardVerdict_body _ _ _ _ _ h with h1 | h1 | ⟨m, h1⟩
            · exact .inr (.inr (.inl h1))
            · exact .inr (.inr (.inr (.inl h1)))
            · exact .inr (.inr (.inr (.inr (.inl ⟨m, h1⟩))))
      · simp at h
        exact .inr (.inl h.symm)
    · simp at h
      exact .inr (.inl h.symm)

/-- The only log entry derived from the raw token text is the bounded
50-character `Received JWT token` line. -/
theorem validate_token_logs_bound (cfg : TrustConfig) (env : PyEnv) (now : Int)
    (auth : Option String) :
    ∀ e ∈ (validate_token cfg env now auth).logs, ∀ s,
      e = LogEntry.receivedToken s → s.length ≤ 50 := by
  intro e he s hes
  subst hes
  simp only [validate_token] at he
  split at he
  · simp at he
  · split at he
    · split at he
      · split at he
        · simp at he
          subst he
          exact pyTake_length_le _ _
        · split at he
          · simp at he
            subst he
            exact pyTake_length_le _ _
          · rcases guardVerdict_logs _ _ _ _ _ he with hl | hne
            · simp at hl
              subst hl
              exact pyTake_length_le _ _
            · exact absurd rfl (hne s)
      · simp at he
    · simp at he

/-- Elimination form of a well-formed bearer header. -/
theorem wellFormed_elim (auth : Option String) (h : wellFormedBearer auth = true) :
    ∃ s p0 tok, auth = some s ∧ s ≠ "" ∧ pySplit s = [p0, tok] ∧
      pyLower p0 = "bearer" := by
  cases auth with
  | none => cases h
  | some s =>
    simp only [wellFormedBearer] at h
    by_cases hs : s = ""
    · rw [if_pos hs] at h; cases h
    · rw [if_neg hs] at h
      cases hsp : pySplit s with
      | nil => simp [hsp] at h
      | cons p rest =>
        cases rest with
        | nil => simp [hsp] at h
        | cons t rest2 =>
          cases rest2 with
          | nil =>
            simp only [hsp] at h
            exact ⟨s, p, t, rfl, hs, hsp, by simpa using h⟩
          | cons x xs => simp [hsp] at h

/-- A request whose header is not well-formed is answered at the header
stage: one of the two header 401s, with no fetch and no signature
verification. -/
theorem validate_token_header_reject (cfg : TrustConfig) (env : PyEnv) (now : Int)
    (auth : Option String) (h : wellFormedBearer auth = false) :
    ((validate_token cfg env now auth).outcome
        = .response (.json401 "No authorization header") ∨
     (validate_token cfg env now auth).outcome
        = .response (.json401 "Invalid authorization header format")) ∧
    (validate_token cfg env now auth).fetches = 0 ∧
    (validate_token cfg env now auth).verifies = 0 := by
  cases auth with
  | none => exact ⟨.inl rfl, rfl, rfl⟩
  | some s =>
    by_cases hs : s = ""
    · subst hs
      exact ⟨.inl rfl, rfl, rfl⟩
    · simp only [wellFormedBearer] at h
      rw [if_neg hs] at h
      have hgd : validate_token cfg env now (some s)
          = { outcome := .response (.json401 "Invalid authorization header format"),
              fetches := 0, verifies := 0, logs := [.invalidHeaderFormat] } := by
        simp only [validate_token, Option.getD_some, if_neg hs]
        cases hsp : pySplit s with
        | nil => simp [hsp]
        | cons p rest =>
          cases rest with
          | nil => simp [hsp]
          | cons t rest2 =>
            cases rest2 with
            | nil =>
              simp only [hsp] at h
              simp only [hsp]
              rw [if_neg (by simpa using h)]
            | cons x xs => simp [hsp]
      rw [hgd]
      exact ⟨.inr rfl, rfl, rfl⟩

/-- Once the header stage is passed, every 401 body comes from the token
pipeline, never from the header checks. -/
theorem validate_token_after_header (cfg : TrustConfig) (env : PyEnv) (now : Int)
    (auth p0 tok : String)
    (hsplit : pySplit auth = [p0, tok]) (hlow : pyLower p0 = "bearer")
    (hne : auth ≠ "") (b : String)
    (h : (validate_token cfg env now (some auth)).outcome = .response (.json401 b)) :
    b = "Token has expired" ∨ b = "Invalid token audience" ∨
    (∃ m, b = "Invalid token: " ++ m) ∨
    (∃ m, b = "Token validation failed: " ++ m) := by
  simp only [validate_token, Option.getD_some, if_neg hne, hsplit, hlow, if_pos] at h
  split at h
  · simp at h
    exact .inr (.inr (.inl ⟨_, h.symm⟩))
  · split at h
    · simp at h
      exact .inr (.inr (.inr ⟨_, h.symm⟩))
    · rcases guardVerdict_body _ _ _ _ _ h with h1 | h1 | ⟨m, h1⟩
      · exact .inl h1
      · exact .inr (.inl h1)
      · exact .inr (.inr (.inl ⟨m, h1⟩))

/-! ## Claim theorems -/

/-- Claim C1.  The claim states that an issuer mismatch is handled at the
guard boundary as a 401 with body `{"error": "Invalid token issuer"}` and
that no exception escapes.  The code contradicts this: the
`except jwt.InvalidIssuerError` handler (app.py line 115) interpolates the
undefined name `ISSUER` into its log message, so a `NameError` is raised
inside the handler and escapes `decorated_function` — the guard returns no
401 at all on this path.  This theorem evaluates the guard at such a
failing input: a correctly signed, unexpired token with a valid audience
whose `iss` is `https://evil.example/` (neither configured issuer). -/
theorem c1_issuer_mismatch_raises_nameerror :
    (validate_token cfg0 env0 now0 (some "Bearer tok-badiss")).outcome
      = .escaped nameErrorMsg := by decide

/-- Claim C2 (counterexample).  A token whose `exp` is in the past but
whose signature is invalid is rejected by the signature check (which PyJWT
runs before any claim validation), not as `Expired`: the validator answers
`InvalidTokenError "Signature verification failed"` and the guard's body
is `Invalid token: Signature verification failed`, not
`Token has expired`. -/
theorem c2_cex_expired_token_with_bad_signature :
    jwtExpiredBadSig.payload.exp = some (now0 - 3600) ∧
    (jwtDecode env0 "tok-expired-badsig" key0 (AUDIENCE cfg0) (ISSUER_V2 cfg0) now0).1
      = .error (.invalidTokenError "Signature verification failed") ∧
    (validate_token cfg0 env0 now0 (some "Bearer tok-expired-badsig")).outcome
      = .response (.json401 "Invalid token: Signature verification failed") :=
  ⟨by decide, by decide, by decide⟩

/-- Claim C2 (amended).  For every token whose signature verifies under
the resolved key (and whose iat/nbf checks pass), an `exp` at or before
the current time makes `jwt.decode` fail with
`ExpiredSignatureError` — the `Rejected(Expired)` verdict. -/
theorem c2_expired_rejected_when_signature_valid
    (env : PyEnv) (tok : String) (t : Jwt) (key : Key) (aud iss : String) (now e : Int)
    (hp : env.parseJwt tok = .ok t) (halg : t.header.alg = some "RS256")
    (hsig : env.verifyRS256 t key = true)
    (hiat : ∀ i, t.payload.iat = some i → i ≤ now)
    (hnbf : ∀ i, t.payload.nbf = some i → i ≤ now)
    (hexp : t.payload.exp = some e) (he : e ≤ now) :
    (jwtDecode env tok key aud iss now).1
      = .error (.expiredSignatureError "Signature has expired") := by
  rw [jwtDecode_verified env tok t key aud iss now hp halg hsig,
    validateClaims_expired t.payload aud iss now e hiat hnbf hexp he]

theorem c2_expired_rejected_when_signature_valid_witness :
    (jwtDecode env0 "tok-expired" key0 (AUDIENCE cfg0) (ISSUER_V2 cfg0) now0).1
      = .error (.expiredSignatureError "Signature has expired") :=
  c2_expired_rejected_when_signature_valid env0 "tok-expired" jwtExpired key0
    (AUDIENCE cfg0) (ISSUER_V2 cfg0) now0 (now0 - 3600) rfl rfl (by decide)
    (by intro i hi
        have h2 : (some (now0 - 60) : Option Int) = some i := hi
        injection h2 with h3
        rw [← h3]
        decide)
    (by intro i hi
        have h2 : (none : Option Int) = some i := hi
        cases h2)
    rfl (by decide)

/-- Claim C3 (counterexample).  `decorated_function` constructs a fresh
`PyJWKClient` on every request (app.py line 60), so no key set survives
between requests: a second validation with the same key identifier
(`kid1`) performs one more network fetch (not zero), and a token with an
unknown key identifier causes two fetches in its request (the initial
fetch plus the refresh retry), not exactly one. -/
theorem c3_cex_no_cross_request_key_cache :
    (requestTrace cfg0 env0 now0
        [some "Bearer tok-good", some "Bearer tok-good"]).map GuardResult.fetches
      = [1, 1] ∧
    (validate_token cfg0 env0 now0 (some "Bearer tok-unknownkid")).fetches = 2 :=
  ⟨by decide, by decide⟩

/-- Claim C3 (amended).  Each request that reaches key resolution builds
a fresh client whose cache is empty, so it always fetches: once when the
declared kid is in the served key set, and twice (initial fetch plus one
refresh retry) when it is not. -/
theorem c3_fresh_client_fetches_every_request
    (cfg : TrustConfig) (env : PyEnv) (now : Int) (auth p0 tok : String) (t : Jwt)
    (hsplit : pySplit auth = [p0, tok]) (hlow : pyLower p0 = "bearer")
    (hp : env.parseJwt tok = .ok t) (hne : env.jwksKeys ≠ []) :
    (validate_token cfg env now (some auth)).fetches
      = if (matchKid env.jwksKeys t.header.kid).isSome then 1 else 2 := by
  cases hk : matchKid env.jwksKeys t.header.kid with
  | some key =>
    rw [validate_token_steps cfg env now auth p0 tok t key hsplit hlow hp hk,
      guardVerdict_fetches]
    simp
  | none =>
    rw [validate_token_keyfail cfg env now auth p0 tok t hsplit hlow hp hk hne]
    simp

theorem c3_fresh_client_fetches_every_request_witness :
    (validate_token cfg0 env0 now0 (some "Bearer tok-good")).fetches
      = if (matchKid env0.jwksKeys jwtGood.header.kid).isSome then 1 else 2 :=
  c3_fresh_client_fetches_every_request cfg0 env0 now0 "Bearer tok-good" "Bearer"
    "tok-good" jwtGood (by decide) (by decide) rfl (by decide)

/-- Claim C4 (counterexample).  Two tokens whose `aud` differs from the
configured `api://client-id`, with valid signature and timing, that are
not rejected as `AudienceMismatch`: one with an empty `aud` (PyJWT raises
`MissingRequiredClaimError`, an `InvalidTokenError`), and one whose
issuer is also unexpected (PyJWT validates `iss` before `aud`, so the
verdict is `IssuerMismatch`). -/
theorem c4_cex_empty_aud_and_issuer_checked_first :
    jwtEmptyAud.payload.aud = some "" ∧
    (jwtDecode env0 "tok-emptyaud" key0 (AUDIENCE cfg0) (ISSUER_V2 cfg0) now0).1
      = .error (.invalidTokenError "Token is missing the \x22aud\x22 claim") ∧
    jwtBadIssBadAud.payload.aud = some "spn:wrong" ∧
    (jwtDecode env0 "tok-badiss-badaud" key0 (AUDIENCE cfg0)
        (expected_issuer cfg0 "https://evil.example/") now0).1
      = .error (.invalidIssuerError "Invalid issuer") :=
  ⟨by decide, by decide, by decide, by decide⟩

/-- Claim C4 (amended).  For a token that passes signature, timing and
issuer checks and carries a present, non-empty `aud`: an `aud` different
from `api://<client-id>` yields `Rejected(AudienceMismatch)`, and an
`aud` exactly equal to `api://<client-id>` passes the audience check (the
token is accepted). -/
theorem c4_audience_exact_match (cfg : TrustConfig) (env : PyEnv) (tok : String)
    (t : Jwt) (key : Key) (iss : String) (now : Int) (a : String)
    (hp : env.parseJwt tok = .ok t) (halg : t.header.alg = some "RS256")
    (hsig : env.verifyRS256 t key = true)
    (hiat : ∀ i, t.payload.iat = some i → i ≤ now)
    (hnbf : ∀ i, t.payload.nbf = some i → i ≤ now)
    (hexp : ∀ e, t.payload.exp = some e → now < e)
    (hiss : t.payload.iss = some iss)
    (haud : t.payload.aud = some a) (hane : a ≠ "") :
    (a ≠ AUDIENCE cfg →
      (jwtDecode env tok key (AUDIENCE cfg) iss now).1
        = .error (.invalidAudienceError "Audience doesn\x27t match")) ∧
    (a = AUDIENCE cfg →
      (jwtDecode env tok key (AUDIENCE cfg) iss now).1 = .ok t.payload) := by
  have hd := jwtDecode_verified env tok t key (AUDIENCE cfg) iss now hp halg hsig
  have hcl : validateClaims t.payload (AUDIENCE cfg) iss now
      = validateAud t.payload (AUDIENCE cfg) :=
    validateClaims_to_aud t.payload (AUDIENCE cfg) iss now hiat hnbf hexp hiss
  have hau := validateAud_cases t.payload (AUDIENCE cfg) a haud hane
  constructor
  · intro hne
    rw [hd]
    simp only [hcl, hau, if_neg hne]
  · intro heq
    rw [hd]
    simp only [hcl, hau, if_pos heq]

theorem c4_audience_exact_match_witness :
    (jwtDecode env0 "tok-bareaud" key0 (AUDIENCE cfg0) (ISSUER_V2 cfg0) now0).1
      = .error (.invalidAudienceError "Audience doesn\x27t match") :=
  (c4_audience_exact_match cfg0 env0 "tok-bareaud" jwtBareAud key0 (ISSUER_V2 cfg0)
      now0 "client-id" rfl rfl (by decide)
      (by intro i hi
          have h2 : (some (now0 - 60) : Option Int) = some i := hi
          injection h2 with h3
          rw [← h3]
          decide)
      (by intro i hi
          have h2 : (none : Option Int) = some i := hi
          cases h2)
      (by intro e he
          have h2 : (some (now0 + 3600) : Option Int) = some e := he
          injection h2 with h3
          rw [← h3]
          decide)
      rfl rfl (by decide)).1 (by decide)

/-- Claim C5.  A token whose header declares any algorithm other than
`RS256` (a different algorithm such as `HS256` or `none`, an empty
string, or a missing `alg` field) is rejected by the `jws` layer with an
`InvalidAlgorithmError` before any signature verification is performed
(zero verification operations); in particular the verdict is never
`Accepted`. -/
theorem c5_non_rs256_algorithm_rejected (env : PyEnv) (tok : String) (t : Jwt)
    (key : Key) (aud iss : String) (now : Int)
    (hp : env.parseJwt tok = .ok t) (halg : t.header.alg ≠ some "RS256") :
    (jwtDecode env tok key aud iss now).1
        = .error (.invalidTokenError (algErrMsg t.header.alg)) ∧
    (jwtDecode env tok key aud iss now).2 = 0 := by
  have hc : jwsAlgCheck t.header = .error (.invalidTokenError (algErrMsg t.header.alg)) := by
    cases ha : t.header.alg with
    | none => simp [jwsAlgCheck, algErrMsg, ha]
    | some a =>
      have hane : ¬ a = "RS256" := by
        intro h
        exact halg (by rw [ha, h])
      simp [jwsAlgCheck, algErrMsg, ha, hane]
  exact ⟨by simp [jwtDecode, hp, hc], by simp [jwtDecode, hp, hc]⟩

theorem c5_non_rs256_algorithm_rejected_witness :
    (jwtDecode env0 "tok-hs256" key0 (AUDIENCE cfg0) (ISSUER_V2 cfg0) now0).1
        = .error (.invalidTokenError (algErrMsg jwtHs256.header.alg)) ∧
    (jwtDecode env0 "tok-hs256" key0 (AUDIENCE cfg0) (ISSUER_V2 cfg0) now0).2 = 0 :=
  c5_non_rs256_algorithm_rejected env0 "tok-hs256" jwtHs256 key0 (AUDIENCE cfg0)
    (ISSUER_V2 cfg0) now0 rfl (by decide)

/-- Claim C6.  Issuer selection is exactly binary: an unverified `iss`
equal to the legacy `https://sts.windows.net/<tenant>/` string selects
that expected issuer, every other value (including the empty string used
when `iss` is absent) selects
`https://login.microsoftonline.com/<tenant>/v2.0`, the selected issuer is
always one of those two, and any claim set the guard accepts carries one
of the two configured issuers — no third issuer is ever accepted. -/
theorem c6_issuer_selection_binary (cfg : TrustConfig) (issuer : String) :
    (issuer = ISSUER_V1 cfg → expected_issuer cfg issuer = ISSUER_V1 cfg) ∧
    (issuer ≠ ISSUER_V1 cfg → expected_issuer cfg issuer = ISSUER_V2 cfg) ∧
    (expected_issuer cfg issuer = ISSUER_V1 cfg ∨
      expected_issuer cfg issuer = ISSUER_V2 cfg) ∧
    (∀ (env : PyEnv) (now : Int) (auth : Option String) (p : Payload),
      (validate_token cfg env now auth).outcome = .response (.handler p) →
      p.iss = some (ISSUER_V1 cfg) ∨ p.iss = some (ISSUER_V2 cfg)) :=
  ⟨fun h => by simp [expected_issuer, h],
   fun h => by simp [expected_issuer, h],
   expected_issuer_mem cfg issuer,
   fun env now auth p h => validate_token_accept_iss cfg env now auth p h⟩

theorem c6_issuer_selection_binary_witness :
    expected_issuer cfg0 "" = ISSUER_V2 cfg0 :=
  (c6_issuer_selection_binary cfg0 "").2.1 (by decide)

/-- Claim C7.  A request whose `Authorization` header is absent, empty,
or not a two-field whitespace split with scheme `bearer` (up to ASCII
case) is rejected with one of the two header-stage 401s before any JWKS
fetch or signature verification; conversely, a request that passes the
header check never produces either header-stage body — any later 401 is
one of the token-pipeline bodies. -/
theorem c7_header_gate (cfg : TrustConfig) (env : PyEnv) (now : Int)
    (auth : Option String) :
    (wellFormedBearer auth = false →
      ((validate_token cfg env now auth).outcome
          = .response (.json401 "No authorization header") ∨
       (validate_token cfg env now auth).outcome
          = .response (.json401 "Invalid authorization header format")) ∧
      (validate_token cfg env now auth).fetches = 0 ∧
      (validate_token cfg env now auth).verifies = 0) ∧
    (wellFormedBearer auth = true →
      ∀ b, (validate_token cfg env now auth).outcome = .response (.json401 b) →
        b ≠ "No authorization header" ∧
        b ≠ "Invalid authorization header format") := by
  constructor
  · exact validate_token_header_reject cfg env now auth
  · intro hw b hb
    obtain ⟨s, p0, tok, rfl, hs, hsp, hlow⟩ := wellFormed_elim auth hw
    have hbody := validate_token_after_header cfg env now s p0 tok hsp hlow hs b hb
    have hne1 : ∀ m, "Invalid token: " ++ m ≠ "No authorization header" :=
      fun m => append_ne _ m _ (by decide)
    have hne2 : ∀ m, "Invalid token: " ++ m ≠ "Invalid authorization header format" :=
      fun m => append_ne _ m _ (by decide)
    have hne3 : ∀ m, "Token validation failed: " ++ m ≠ "No authorization header" :=
      fun m => append_ne _ m _ (by decide)
    have hne4 : ∀ m,
        "Token validation failed: " ++ m ≠ "Invalid authorization header format" :=
      fun m => append_ne _ m _ (by decide)
    rcases hbody with h | h | ⟨m, h⟩ | ⟨m, h⟩ <;> subst h
    · exact ⟨by decide, by decide⟩
    · exact ⟨by decide, by decide⟩
    · exact ⟨hne1 m, hne2 m⟩
    · exact ⟨hne3 m, hne4 m⟩

theorem c7_header_gate_witness :
    ((validate_token cfg0 env0 now0 (some "Basic abc123")).outcome
        = .response (.json401 "No authorization header") ∨
     (validate_token cfg0 env0 now0 (some "Basic abc123")).outcome
        = .response (.json401 "Invalid authorization header format")) ∧
    (validate_token cfg0 env0 now0 (some "Basic abc123")).fetches = 0 ∧
    (validate_token cfg0 env0 now0 (some "Basic abc123")).verifies = 0 :=
  (c7_header_gate cfg0 env0 now0 (some "Basic abc123")).1 (by decide)

/-- Claim C8 (counterexample).  The claim states the 401 body never
contains exception text.  But the `except jwt.InvalidTokenError` handler
(app.py line 119) interpolates `str(e)` into the body: a malformed token
(`Bearer x`) produces the body
`Invalid token: Not enough segments`, embedding the `DecodeError`
message verbatim. -/
theorem c8_cex_exception_text_in_body :
    env0.parseJwt "x" = .error "Not enough segments" ∧
    (validate_token cfg0 env0 now0 (some "Bearer x")).outcome
      = .response (.json401 ("Invalid token: " ++ "Not enough segments")) :=
  ⟨by decide, by decide⟩

/-- Claim C8 (amended).  Every 401 body is a fixed short message or a
fixed message followed by the PyJWT exception text (never the raw token,
a stack trace or key material, none of which the body construction
touches); and every log entry derived from the raw token text is the
`Received JWT token` line, whose payload is at most the first 50
characters of the token. -/
theorem c8_rejection_bodies_fixed_and_logs_bounded (cfg : TrustConfig) (env : PyEnv)
    (now : Int) (auth : Option String) :
    (∀ b, (validate_token cfg env now auth).outcome = .response (.json401 b) →
      b = "No authorization header" ∨ b = "Invalid authorization header format" ∨
      b = "Token has expired" ∨ b = "Invalid token audience" ∨
      (∃ m, b = "Invalid token: " ++ m) ∨
      (∃ m, b = "Token validation failed: " ++ m)) ∧
    (∀ e ∈ (validate_token cfg env now auth).logs, ∀ s,
      e = LogEntry.receivedToken s → s.length ≤ 50) :=
  ⟨fun b h => validate_token_body_shape cfg env now auth b h,
   validate_token_logs_bound cfg env now auth⟩

theorem c8_rejection_bodies_fixed_and_logs_bounded_witness :
    "Invalid token: Not enough segments" = "No authorization header" ∨
    "Invalid token: Not enough segments" = "Invalid authorization header format" ∨
    "Invalid token: Not enough segments" = "Token has expired" ∨
    "Invalid token: Not enough segments" = "Invalid token audience" ∨
    (∃ m, "Invalid token: Not enough segments" = "Invalid token: " ++ m) ∨
    (∃ m, "Invalid token: Not enough segments" = "Token validation failed: " ++ m) :=
  (c8_rejection_bodies_fixed_and_logs_bounded cfg0 env0 now0 (some "Bearer x")).1
    "Invalid token: Not enough segments" (by decide)

/-- Claim C9.  A correctly signed token with the expected issuer and
audience but `exp` one hour in the past is answered with HTTP 401 and
body `{"error": "Token has expired"}`. -/
theorem c9_expired_one_hour_gives_401 (cfg : TrustConfig) (env : PyEnv) (now : Int)
    (auth p0 tok : String) (t : Jwt) (key : Key)
    (hsplit : pySplit auth = [p0, tok]) (hlow : pyLower p0 = "bearer")
    (hp : env.parseJwt tok = .ok t)
    (hkid : matchKid env.jwksKeys t.header.kid = some key)
    (halg : t.header.alg = some "RS256")
    (hsig : env.verifyRS256 t key = true)
    (hiss : t.payload.iss = some (ISSUER_V2 cfg))
    (haud : t.payload.aud = some (AUDIENCE cfg))
    (hiat : ∀ i, t.payload.iat = some i → i ≤ now)
    (hnbf : ∀ i, t.payload.nbf = some i → i ≤ now)
    (hexp : t.payload.exp = some (now - 3600)) :
    (validate_token cfg env now (some auth)).outcome
      = .response (.json401 "Token has expired") := by
  rw [validate_token_steps cfg env now auth p0 tok t key hsplit hlow hp hkid,
    jwtDecode_verified env tok t key (AUDIENCE cfg)
      (expected_issuer cfg (t.payload.iss.getD "")) now hp halg hsig,
    validateClaims_expired t.payload (AUDIENCE cfg)
      (expected_issuer cfg (t.payload.iss.getD "")) now (now - 3600) hiat hnbf hexp
      (by omega)]
  rfl

theorem c9_expired_one_hour_gives_401_witness :
    (validate_token cfg0 env0 now0 (some "Bearer tok-expired")).outcome
      = .response (.json401 "Token has expired") :=
  c9_expired_one_hour_gives_401 cfg0 env0 now0 "Bearer tok-expired" "Bearer"
    "tok-expired" jwtExpired key0 (by decide) (by decide) rfl (by decide) rfl
    (by decide) rfl rfl
    (by intro i hi
        have h2 : (some (now0 - 60) : Option Int) = some i := hi
        injection h2 with h3
        rw [← h3]
        decide)
    (by intro i hi
        have h2 : (none : Option Int) = some i := hi
        cases h2)
    rfl

/-- Claim C10.  The header check splits on arbitrary whitespace runs and
compares the scheme case-insensitively: any header value whose
whitespace-split is `[p0, tok]` with `p0` lowering to `bearer` is
well-formed, and the guard proceeds to process `tok` (logging its
50-character preview) instead of rejecting at the header stage. -/
theorem c10_scheme_case_insensitive_whitespace_split (cfg : TrustConfig)
    (env : PyEnv) (now : Int) (hStr p0 tok : String)
    (hsplit : pySplit hStr = [p0, tok]) (hlow : pyLower p0 = "bearer") :
    wellFormedBearer (some hStr) = true ∧
    LogEntry.receivedToken (pyTake tok 50)
      ∈ (validate_token cfg env now (some hStr)).logs := by
  have hne : hStr ≠ "" := by
    intro h
    rw [h] at hsplit
    have h0 : pySplit "" = [] := rfl
    rw [h0] at hsplit
    cases hsplit
  constructor
  · simp only [wellFormedBearer, if_neg hne, hsplit]
    simpa using hlow
  · simp only [validate_token, Option.getD_some, if_neg hne, hsplit, hlow, if_pos]
    split
    · simp
    · split
      · simp
      · exact guardVerdict_logs_left _ _ _ _ _ (by simp)

theorem c10_scheme_case_insensitive_whitespace_split_witness :
    wellFormedBearer (some "BEARER\ttok-good") = true ∧
    LogEntry.receivedToken (pyTake "tok-good" 50)
      ∈ (validate_token cfg0 env0 now0 (some "BEARER\ttok-good")).logs :=
  c10_scheme_case_insensitive_whitespace_split cfg0 env0 now0 "BEARER\ttok-good"
    "BEARER" "tok-good" (by decide) (by decide)

end JwtApp
